import Mathlib

set_option maxHeartbeats 1000000

/-!
Shallow embedding of src/rangeshifter.py (class RangeShifter), a tool that
edits range-shifter attributes of a decoded DICOM RT Ion Plan document.

Python values that flow through the constructor are modelled by PyVal
(None, numbers as exact rationals, strings); Python exceptions by PyError;
fallible code returns Except PyError.  The decoded document (a pydicom
Dataset) is modelled by the Dataset structure below, restricted to the
attributes the program reads or writes.  Reading an object attribute that
may not have been assigned is modelled by Option plus getAttr, which
raises AttributeError when the attribute is unset, exactly as Python does.
-/

/-- A dynamically typed Python value, restricted to the types that reach the
constructor of the source class: None, numbers (int and float collapsed to
exact rationals), and strings. -/
inductive PyVal where
  | vnone
  | num (q : ℚ)
  | str (s : String)
  deriving DecidableEq, Inhabited

/-- The Python exception kinds the source program can raise, each carrying
its message. -/
inductive PyError where
  | typeError (msg : String)
  | valueError (msg : String)
  | nameError (msg : String)
  | attributeError (msg : String)
  | indexError (msg : String)
  deriving DecidableEq, Inhabited

/-- Python equality between the modelled values (used by the membership
tests such as range_shifter in [2,3,5]); == between these types never
raises in Python. -/
def pyEq : PyVal → PyVal → Bool
  | .vnone, .vnone => true
  | .num a, .num b => decide (a = b)
  | .str a, .str b => decide (a = b)
  | _, _ => false

/-- Python isinstance(x, (float, int)). -/
def isNumeric : PyVal → Bool
  | .num _ => true
  | _ => false

/-- Python truthiness of the modelled values. -/
def pyTruthy : PyVal → Bool
  | .vnone => false
  | .num q => decide (q ≠ 0)
  | .str s => decide (s ≠ "")

/-- Decimal rendering used by Python str() on the numbers that actually
occur in the program (the thicknesses 2, 3, 5 and the snout position). -/
def ratStr (q : ℚ) : String :=
  if q.den = 1 then toString q.num else toString q.num ++ ("/") ++ toString q.den

/-- Python str() on the modelled values. -/
def pyStr : PyVal → String
  | .vnone => ("None")
  | .num q => ratStr q
  | .str s => s

/-- Python a > b.  In the source the right operand is always a float
literal; comparing None or a string against a number raises TypeError. -/
def pyGT : PyVal → PyVal → Except PyError Bool
  | .num a, .num b => Except.ok (decide (b < a))
  | _, _ => Except.error (.typeError ("order comparison not supported between these operand types"))

/-- Python a < b, right operand numeric in the source. -/
def pyLT : PyVal → PyVal → Except PyError Bool
  | .num a, .num b => Except.ok (decide (a < b))
  | _, _ => Except.error (.typeError ("order comparison not supported between these operand types"))

/-- Python a + b on the modelled values. -/
def pyAdd : PyVal → PyVal → Except PyError PyVal
  | .num a, .num b => Except.ok (.num (a + b))
  | .str a, .str b => Except.ok (.str (a ++ b))
  | _, _ => Except.error (.typeError ("unsupported operand types for addition"))

/-- Python a - b on the modelled values. -/
def pySub : PyVal → PyVal → Except PyError PyVal
  | .num a, .num b => Except.ok (.num (a - b))
  | _, _ => Except.error (.typeError ("unsupported operand types for subtraction"))

/-- Python s[-4:]: the last four characters (the whole string when it is
shorter). -/
def pySliceLast4 (s : String) : String := s.drop (s.length - 4)

/-- Python s[:-4]: everything but the last four characters (empty when the
string is not longer than four characters). -/
def pyDropLast4 (s : String) : String := s.take (s.length - 4)

/-- Python seq[0] = f(seq[0]) style update of the first element; raises
IndexError on an empty sequence, as Python does. -/
def setIndex0 {α : Type} (l : List α) (f : α → α) : Except PyError (List α) :=
  match l with
  | [] => Except.error (.indexError ("list index out of range"))
  | x :: xs => Except.ok (f x :: xs)

/-- Python seq[0]; raises IndexError on an empty sequence. -/
def getIndex0 {α : Type} (l : List α) : Except PyError α :=
  match l with
  | [] => Except.error (.indexError ("list index out of range"))
  | x :: _ => Except.ok x

/-- Reading a possibly-unassigned Python instance attribute: None models an
attribute that was never assigned, and reading it raises AttributeError. -/
def getAttr {α : Type} (o : Option α) (nm : String) : Except PyError α :=
  match o with
  | some a => Except.ok a
  | none => Except.error (.attributeError (("RangeShifter object has no attribute ") ++ nm))

/-- The for-loop over the ion beams: apply f to each element in order,
stopping at the first raised exception. -/
def mapExcept {α β : Type} (f : α → Except PyError β) : List α → Except PyError (List β)
  | [] => Except.ok []
  | x :: xs => do
    let y ← f x
    let ys ← mapExcept f xs
    pure (y :: ys)

/-- One block of the range shifter sequence (300a,0314): the rs_seq Dataset
built in RangeShifter.add. -/
structure RSDevice where
  RangeShifterNumber : Int
  RangeShifterID : String
  RangeShifterType : String
  deriving DecidableEq, Inhabited

/-- One block of the range shifter settings sequence (300a,0360): the
rs_set_seq Dataset built in RangeShifter.add. -/
structure RSSettings where
  RangeShifterSetting : String
  IsocenterToRangeShifterDistance : PyVal
  RangeShifterWaterEquivalentThickness : ℚ
  ReferencedRangeShifterNumber : Int
  deriving DecidableEq, Inhabited

/-- One entry of an ion beam's IonControlPointSequence, restricted to the
attributes the program touches. -/
structure ControlPoint where
  SnoutPosition : PyVal
  RangeShifterSettingsSequence : List RSSettings
  deriving DecidableEq, Inhabited

/-- One entry of the document's IonBeamSequence, restricted to the
attributes the program touches. -/
structure IonBeam where
  NumberOfRangeShifters : Int
  RangeShifterSequence : List RSDevice
  IonControlPointSequence : List ControlPoint
  deriving DecidableEq, Inhabited

/-- The decoded RT Ion Plan document, restricted to the attributes the
program reads or writes. -/
structure Dataset where
  IonBeamSequence : List IonBeam
  RTPlanLabel : String
  SOPInstanceUID : String
  deriving DecidableEq, Inhabited

namespace RangeShifter

/-- The instance state assigned by RangeShifter.__init__.  RangeShifterID
and IsocentertoRangeShifterDistance are Option because the constructor
assigns them only on some paths; ds is the attribute assigned at the end
of add and read by save, unset until then. -/
structure Config where
  infile : String
  outfile : String
  RTPlanLabel : String
  SnoutPosition : PyVal
  add_rangeshifter : Bool
  RangeShifterID : Option String
  IsocentertoRangeShifterDistance : Option PyVal
  RangeShifterNumber : Int
  ReferencedRangeShifterNumber : Int
  RangeShifterType : String
  RangeShifterSetting : String
  NumberOfRangeShifters : Int
  RangeShifterWaterEquivalentThickness : ℚ
  ds : Option Dataset
  deriving DecidableEq, Inhabited

/-- Source lines 32 to 35: infile must be a string ending in .dcm. -/
def checkInfile (infile : PyVal) : Except PyError String :=
  match infile with
  | .str s =>
    if ¬ (pySliceLast4 s = (".dcm")) then
      Except.error (.valueError ("infile must include .dcm file extension"))
    else
      Except.ok s
  | _ => Except.error (.typeError ("infile must be a string"))

/-- Python range_shifter in [2,3,5] (membership via ==). -/
def rsInSet (rs : PyVal) : Bool :=
  pyEq rs (.num 2) || pyEq rs (.num 3) || pyEq rs (.num 5)

/-- Source lines 37 to 42: the thickness checks.  Returns the value of the
RangeShifterID attribute: some id when the first branch assigned it, none
when no branch ran (modify mode with thickness None), error when a raise
branch ran. -/
def checkRangeShifter (rs : PyVal) (add_rangeshifter : Bool) : Except PyError (Option String) :=
  if rsInSet rs then
    Except.ok (some (("RS=") ++ pyStr rs ++ ("cm")))
  else if add_rangeshifter && ! rsInSet rs then
    Except.error (.valueError ("range_shifter must be int, either: 2, 3 or 5"))
  else if (! add_rangeshifter) && ! (rsInSet rs || pyEq rs PyVal.vnone) then
    Except.error (.valueError ("range_shifter must be None or int (either: 2, 3 or 5)"))
  else
    Except.ok none

/-- Source lines 44 to 45: plan_id must be a string. -/
def checkPlanId (plan_id : PyVal) : Except PyError String :=
  match plan_id with
  | .str s => Except.ok s
  | _ => Except.error (.typeError ("plan_id must be a string"))

/-- Source lines 47 to 52: the snout position checks.  In modify mode the
comparison snout_position > 421.0 is evaluated first, so an absent (None)
snout position raises TypeError from the comparison before the branch's
own ValueError can fire. -/
def checkSnout (snout_position : PyVal) (add_rangeshifter : Bool) : Except PyError Unit := do
  if add_rangeshifter && ! isNumeric snout_position then
    throw (.typeError ("snout_position must be float or int"))
  else if add_rangeshifter then
    let hi ← pyGT snout_position (.num 421)
    if hi then
      throw (.valueError ("snout_position must be between 20.0 and 421.0"))
    else
      let lo ← pyLT snout_position (.num 20)
      if lo then
        throw (.valueError ("snout_position must be between 20.0 and 421.0"))
      else
        pure ()
  else
    let hi ← pyGT snout_position (.num 421)
    if hi then
      throw (.valueError ("snout_position must be None or between 20.0 and 421.0"))
    else
      let lo ← pyLT snout_position (.num 20)
      if lo then
        throw (.valueError ("snout_position must be None or between 20.0 and 421.0"))
      else if pyEq snout_position PyVal.vnone then
        throw (.valueError ("snout_position must be None or between 20.0 and 421.0"))
      else
        pure ()

/-- Source lines 54 to 59: the output file name, synthesized from the input
stem when absent, with the .dcm extension appended when missing. -/
def resolveOutfile (outfile : PyVal) (infileS : String) (rs snout : PyVal) : Except PyError String :=
  match outfile with
  | .vnone =>
    Except.ok (pyDropLast4 infileS ++ ("_RS") ++ pyStr rs ++ ("_Snout") ++ pyStr snout ++ (".dcm"))
  | .str o =>
    Except.ok (if ¬ (pySliceLast4 o = (".dcm")) then o ++ (".dcm") else o)
  | .num _ => Except.error (.typeError ("object is not subscriptable"))

/-- Source lines 61 to 65: when snout_position is truthy, the derived
distance 461.0 - 421.0 + snout_position; otherwise the attribute stays
unset. -/
def computeIso (snout_position : PyVal) : Except PyError (Option PyVal) :=
  if pyTruthy snout_position then do
    let d ← pySub (.num 461) (.num 421)
    let v ← pyAdd d snout_position
    pure (some v)
  else
    pure none

/-- RangeShifter.__init__ (source lines 23 to 76). -/
def init (infile plan_id snout_position range_shifter outfile : PyVal)
    (add_rangeshifter : Bool) : Except PyError Config := do
  let infileS ← checkInfile infile
  let rsId ← checkRangeShifter range_shifter add_rangeshifter
  let planS ← checkPlanId plan_id
  let _ ← checkSnout snout_position add_rangeshifter
  let outfileS ← resolveOutfile outfile infileS range_shifter snout_position
  let iso ← computeIso snout_position
  pure {
    infile := infileS
    outfile := outfileS
    RTPlanLabel := planS
    SnoutPosition := snout_position
    add_rangeshifter := add_rangeshifter
    RangeShifterID := rsId
    IsocentertoRangeShifterDistance := iso
    RangeShifterNumber := 1
    ReferencedRangeShifterNumber := 1
    RangeShifterType := ("BINARY")
    RangeShifterSetting := ("IN")
    NumberOfRangeShifters := 1
    RangeShifterWaterEquivalentThickness := 23
    ds := none }

/-- Source line 122: uid[0:2] + the character 4 + uid[3:], working on the
character sequence exactly as a Python slice does. -/
def rewriteUID (uid : String) : String :=
  String.mk (uid.data.take 2 ++ ['4'] ++ uid.data.drop 3)

/-- The body of the add-mode loop (source lines 102 to 106) for one ion
beam. -/
def addModeBeam (c : Config) (rs_seq : RSDevice) (rs_set_seq : RSSettings)
    (beam : IonBeam) : Except PyError IonBeam := do
  let beam1 : IonBeam := { beam with NumberOfRangeShifters := c.NumberOfRangeShifters }
  let icps ← setIndex0 beam1.IonControlPointSequence
    (fun cp => { cp with SnoutPosition := c.SnoutPosition })
  let beam2 : IonBeam :=
    { beam1 with IonControlPointSequence := icps, RangeShifterSequence := [rs_seq] }
  let icps2 ← setIndex0 beam2.IonControlPointSequence
    (fun cp => { cp with RangeShifterSettingsSequence := [rs_set_seq] })
  pure { beam2 with IonControlPointSequence := icps2 }

/-- The body of the modify-mode loop (source lines 110 to 117) for one ion
beam.  Reading self.RangeShifterID raises AttributeError when the
constructor never assigned it (thickness absent); when it was assigned,
the assignment on source line 113 evaluates the bare, undefined name
RangeShifterID and raises NameError. -/
def modifyModeBeam (c : Config) (beam : IonBeam) : Except PyError IonBeam := do
  let rsid ← getAttr c.RangeShifterID ("RangeShifterID")
  let beam1 ←
    if rsid ≠ ("") then
      throw (.nameError ("name RangeShifterID is not defined"))
    else
      pure beam
  if pyTruthy c.SnoutPosition then do
    let icps ← setIndex0 beam1.IonControlPointSequence
      (fun cp => { cp with SnoutPosition := c.SnoutPosition })
    let beam2 : IonBeam := { beam1 with IonControlPointSequence := icps }
    let cp0 ← getIndex0 beam2.IonControlPointSequence
    let iso ← getAttr c.IsocentertoRangeShifterDistance ("IsocentertoRangeShifterDistance")
    let newSettings ← setIndex0 cp0.RangeShifterSettingsSequence
      (fun st => { st with IsocenterToRangeShifterDistance := iso })
    let icps2 ← setIndex0 beam2.IonControlPointSequence
      (fun cp => { cp with RangeShifterSettingsSequence := newSettings })
    pure { beam2 with IonControlPointSequence := icps2 }
  else
    pure beam1

/-- RangeShifter.add (source lines 79 to 124).  The dcmread call is
modelled by passing the decoded document dsIn; on success the mutated
document is stored in the ds attribute of the returned state, mirroring
self.ds = ds on source line 124. -/
def add (c : Config) (dsIn : Dataset) : Except PyError Config := do
  let newBeams ←
    if c.add_rangeshifter = true then do
      let rsid ← getAttr c.RangeShifterID ("RangeShifterID")
      let rs_seq : RSDevice :=
        { RangeShifterNumber := c.RangeShifterNumber
          RangeShifterID := rsid
          RangeShifterType := c.RangeShifterType }
      let iso ← getAttr c.IsocentertoRangeShifterDistance ("IsocentertoRangeShifterDistance")
      let rs_set_seq : RSSettings :=
        { RangeShifterSetting := c.RangeShifterSetting
          IsocenterToRangeShifterDistance := iso
          RangeShifterWaterEquivalentThickness := c.RangeShifterWaterEquivalentThickness
          ReferencedRangeShifterNumber := c.ReferencedRangeShifterNumber }
      mapExcept (addModeBeam c rs_seq rs_set_seq) dsIn.IonBeamSequence
    else
      mapExcept (modifyModeBeam c) dsIn.IonBeamSequence
  let dsOut : Dataset :=
    { IonBeamSequence := newBeams
      RTPlanLabel := c.RTPlanLabel
      SOPInstanceUID := rewriteUID dsIn.SOPInstanceUID }
  pure { c with ds := some dsOut }

/-- RangeShifter.save (source lines 127 to 132).  Reading self.ds raises
AttributeError when add never completed; on success the returned pair is
the one file write the program performs (path and serialized document). -/
def save (c : Config) : Except PyError (String × Dataset) :=
  match c.ds with
  | none => Except.error (.attributeError (("RangeShifter object has no attribute ") ++ ("ds")))
  | some d => Except.ok (c.outfile, d)

end RangeShifter

deriving instance DecidableEq for Except

/-- A concrete decoded document used as a test input: one ion beam that
already carries one device block and one control point with one settings
block (the structural precondition of modify mode). -/
def sampleSettings : RSSettings := ⟨("IN"), .num 300, 23, 1⟩

/-- The one control point of the sample beam. -/
def sampleCP : ControlPoint := ⟨.num 100, [sampleSettings]⟩

/-- The pre-existing device block of the sample beam. -/
def sampleDevice : RSDevice := ⟨1, ("RS=5cm"), ("BINARY")⟩

/-- The one ion beam of the sample document. -/
def sampleBeam : IonBeam := ⟨1, [sampleDevice], [sampleCP]⟩

/-- The sample document. -/
def sampleDoc : Dataset := ⟨[sampleBeam], ("OldLabel"), ("1.2.840.10008")⟩

/-- The state produced by the constructor in add mode for input file
plan.dcm, plan label label, snout position p and thickness 3 (established
by init_add_eval below). -/
def cfgAddP (p : ℚ) : RangeShifter.Config :=
  { infile := ("plan.dcm")
    outfile := (pyDropLast4 ("plan.dcm") ++ ("_RS") ++ pyStr (.num 3) ++ ("_Snout")
      ++ pyStr (.num p) ++ (".dcm"))
    RTPlanLabel := ("label")
    SnoutPosition := .num p
    add_rangeshifter := true
    RangeShifterID := some ("RS=3cm")
    IsocentertoRangeShifterDistance := some (.num (461 - 421 + p))
    RangeShifterNumber := 1
    ReferencedRangeShifterNumber := 1
    RangeShifterType := ("BINARY")
    RangeShifterSetting := ("IN")
    NumberOfRangeShifters := 1
    RangeShifterWaterEquivalentThickness := 23
    ds := none }

/-- A concrete freshly constructed state (snout 250, thickness 3, add
mode), used to witness that save fails before add has run. -/
def cfgW : RangeShifter.Config :=
  ((RangeShifter.init (.str ("plan.dcm")) (.str ("label")) (.num 250) (.num 3)
      PyVal.vnone true).toOption).getD default

/-- The constructor state at snout 250 used by the end-to-end witness. -/
def cfgAdd250 : RangeShifter.Config := cfgAddP 250

/-- The state after applying add to the sample document from cfgAdd250. -/
def cfgAdd250' : RangeShifter.Config :=
  ((RangeShifter.add cfgAdd250 sampleDoc).toOption).getD default

/-! Helper lemmas about the Except monad and the loop combinator. -/

theorem ok_bind {ε α β : Type} (a : α) (f : α → Except ε β) :
    ((Except.ok a : Except ε α) >>= f) = f a := rfl

theorem err_bind {ε α β : Type} (e : ε) (f : α → Except ε β) :
    ((Except.error e : Except ε α) >>= f) = Except.error e := rfl

theorem pure_eq_ok {ε α : Type} (a : α) : (pure a : Except ε α) = Except.ok a := rfl

theorem throw_eq_error {ε α : Type} (e : ε) : (throw e : Except ε α) = Except.error e := rfl

theorem bindOk {ε α β : Type} {x : Except ε α} {f : α → Except ε β} {b : β}
    (h : (x >>= f) = Except.ok b) : ∃ a, x = Except.ok a ∧ f a = Except.ok b := by
  cases x with
  | error e => exact absurd h (by simp [err_bind])
  | ok a => exact ⟨a, rfl, h⟩

theorem mapExcept_ok {α β : Type} {f : α → Except PyError β} :
    ∀ {l : List α} {l' : List β}, mapExcept f l = Except.ok l' →
      l'.length = l.length ∧ ∀ b ∈ l', ∃ a ∈ l, f a = Except.ok b := by
  intro l
  induction l with
  | nil =>
    intro l' h
    simp only [mapExcept] at h
    cases h
    simp
  | cons x xs ih =>
    intro l' h
    simp only [mapExcept] at h
    obtain ⟨y, hy, h⟩ := bindOk h
    obtain ⟨ys, hys, h⟩ := bindOk h
    rw [pure_eq_ok] at h
    cases h
    obtain ⟨hlen, hmem⟩ := ih hys
    refine ⟨by simp [hlen], ?_⟩
    intro b hb
    rcases List.mem_cons.1 hb with hb | hb
    · exact ⟨x, List.mem_cons_self x xs, hb ▸ hy⟩
    · obtain ⟨a, ha, hfa⟩ := hmem b hb
      exact ⟨a, List.mem_cons_of_mem x ha, hfa⟩

/-! Evaluation lemmas for the constructor in add mode. -/

theorem checkSnout_add_ok (p : ℚ) (h1 : 20 ≤ p) (h2 : p ≤ 421) :
    RangeShifter.checkSnout (.num p) true = Except.ok () := by
  have e1 : decide ((421 : ℚ) < p) = false := decide_eq_false (not_lt.2 h2)
  have e2 : decide (p < (20 : ℚ)) = false := decide_eq_false (not_lt.2 h1)
  simp [RangeShifter.checkSnout, isNumeric, pyGT, pyLT, e1, e2, ok_bind, pure_eq_ok, throw_eq_error]

theorem checkSnout_add_err (p : ℚ) (h : p < 20 ∨ 421 < p) :
    RangeShifter.checkSnout (.num p) true
      = Except.error (.valueError ("snout_position must be between 20.0 and 421.0")) := by
  rcases h with h | h
  · have e1 : decide ((421 : ℚ) < p) = false := decide_eq_false (not_lt.2 (by linarith))
    have e2 : decide (p < (20 : ℚ)) = true := decide_eq_true h
    simp [RangeShifter.checkSnout, isNumeric, pyGT, pyLT, e1, e2, ok_bind, pure_eq_ok, throw_eq_error]
  · have e1 : decide ((421 : ℚ) < p) = true := decide_eq_true h
    simp [RangeShifter.checkSnout, isNumeric, pyGT, pyLT, e1, ok_bind, pure_eq_ok, throw_eq_error]

theorem computeIso_num (p : ℚ) (hp : p ≠ 0) :
    RangeShifter.computeIso (.num p) = Except.ok (some (.num (461 - 421 + p))) := by
  simp [RangeShifter.computeIso, pyTruthy, pySub, pyAdd, hp, ok_bind]

theorem init_add_eval (p : ℚ) (h1 : 20 ≤ p) (h2 : p ≤ 421) :
    RangeShifter.init (.str ("plan.dcm")) (.str ("label")) (.num p) (.num 3) PyVal.vnone true
      = Except.ok (cfgAddP p) := by
  have hp0 : p ≠ 0 := by intro h; rw [h] at h1; norm_num at h1
  unfold RangeShifter.init
  rw [show RangeShifter.checkInfile (PyVal.str ("plan.dcm")) = Except.ok ("plan.dcm") from rfl,
    ok_bind,
    show RangeShifter.checkRangeShifter (PyVal.num 3) true = Except.ok (some ("RS=3cm")) from rfl,
    ok_bind,
    show RangeShifter.checkPlanId (PyVal.str ("label")) = Except.ok ("label") from rfl,
    ok_bind, checkSnout_add_ok p h1 h2, ok_bind]
  rw [show RangeShifter.resolveOutfile PyVal.vnone ("plan.dcm") (PyVal.num 3) (PyVal.num p)
        = Except.ok (pyDropLast4 ("plan.dcm") ++ ("_RS") ++ pyStr (.num 3) ++ ("_Snout")
          ++ pyStr (.num p) ++ (".dcm")) from rfl,
    ok_bind, computeIso_num p hp0, ok_bind]
  rfl

theorem init_add_out_of_range (p : ℚ) (h : p < 20 ∨ 421 < p) :
    RangeShifter.init (.str ("plan.dcm")) (.str ("label")) (.num p) (.num 3) PyVal.vnone true
      = Except.error (.valueError ("snout_position must be between 20.0 and 421.0")) := by
  unfold RangeShifter.init
  rw [show RangeShifter.checkInfile (PyVal.str ("plan.dcm")) = Except.ok ("plan.dcm") from rfl,
    ok_bind,
    show RangeShifter.checkRangeShifter (PyVal.num 3) true = Except.ok (some ("RS=3cm")) from rfl,
    ok_bind,
    show RangeShifter.checkPlanId (PyVal.str ("label")) = Except.ok ("label") from rfl,
    ok_bind, checkSnout_add_err p h, err_bind]

theorem checkRangeShifter_add_err (t : ℚ) (h : ¬ (t = 2 ∨ t = 3 ∨ t = 5)) :
    RangeShifter.checkRangeShifter (.num t) true
      = Except.error (.valueError ("range_shifter must be int, either: 2, 3 or 5")) := by
  push_neg at h
  have e : RangeShifter.rsInSet (.num t) = false := by
    simp [RangeShifter.rsInSet, pyEq, h.1, h.2.1, h.2.2]
  simp [RangeShifter.checkRangeShifter, e]

theorem init_add_bad_thickness (t : ℚ) (h : ¬ (t = 2 ∨ t = 3 ∨ t = 5)) :
    RangeShifter.init (.str ("plan.dcm")) (.str ("label")) (.num 250) (.num t) PyVal.vnone true
      = Except.error (.valueError ("range_shifter must be int, either: 2, 3 or 5")) := by
  unfold RangeShifter.init
  rw [show RangeShifter.checkInfile (PyVal.str ("plan.dcm")) = Except.ok ("plan.dcm") from rfl,
    ok_bind, checkRangeShifter_add_err t h, err_bind]

/-! Analysis of the add operation in add mode. -/

theorem addModeBeam_spec {c : RangeShifter.Config} {d : RSDevice} {st : RSSettings}
    {b b' : IonBeam} (h : RangeShifter.addModeBeam c d st b = Except.ok b') :
    b'.NumberOfRangeShifters = c.NumberOfRangeShifters ∧
    b'.RangeShifterSequence = [d] ∧
    ∃ cp rest, b'.IonControlPointSequence = cp :: rest ∧
      cp.SnoutPosition = c.SnoutPosition ∧
      cp.RangeShifterSettingsSequence = [st] := by
  obtain ⟨nrs, rss, icps⟩ := b
  cases icps with
  | nil => simp [RangeShifter.addModeBeam, setIndex0, err_bind] at h
  | cons cp rest =>
    simp only [RangeShifter.addModeBeam, setIndex0, ok_bind, pure_eq_ok] at h
    cases h
    exact ⟨rfl, rfl, _, rest, rfl, rfl, rfl⟩

theorem add_addmode_spec {c c' : RangeShifter.Config} {dsIn : Dataset} {rid : String}
    {isoV : PyVal}
    (hmode : c.add_rangeshifter = true)
    (hrid : c.RangeShifterID = some rid)
    (hiso : c.IsocentertoRangeShifterDistance = some isoV)
    (h : RangeShifter.add c dsIn = Except.ok c') :
    ∃ beams,
      mapExcept (RangeShifter.addModeBeam c
          { RangeShifterNumber := c.RangeShifterNumber
            RangeShifterID := rid
            RangeShifterType := c.RangeShifterType }
          { RangeShifterSetting := c.RangeShifterSetting
            IsocenterToRangeShifterDistance := isoV
            RangeShifterWaterEquivalentThickness := c.RangeShifterWaterEquivalentThickness
            ReferencedRangeShifterNumber := c.ReferencedRangeShifterNumber })
          dsIn.IonBeamSequence
        = Except.ok beams ∧
      c'.ds = some
        { IonBeamSequence := beams
          RTPlanLabel := c.RTPlanLabel
          SOPInstanceUID := RangeShifter.rewriteUID dsIn.SOPInstanceUID } := by
  unfold RangeShifter.add at h
  rw [hmode] at h
  simp only [if_pos rfl, hrid, hiso, getAttr, ok_bind] at h
  obtain ⟨beams, hb, h⟩ := bindOk h
  rw [pure_eq_ok] at h
  cases h
  exact ⟨beams, hb, rfl⟩

/-- Claim C1: in add mode, applying the edit to a document with N ion-beam
entries leaves exactly N entries, and for every entry the range-shifter
device sequence holds exactly one device block, the first control point
carries exactly one settings block and the requested snout position, and
the settings block carries the computed isocenter-to-range-shifter
distance 461 - 421 + p. -/
theorem addMode_apply_end_to_end (p : ℚ) (c c' : RangeShifter.Config) (dsIn : Dataset)
    (h1 : 20 ≤ p) (h2 : p ≤ 421)
    (hinit : RangeShifter.init (.str ("plan.dcm")) (.str ("label")) (.num p) (.num 3)
        PyVal.vnone true = Except.ok c)
    (hadd : RangeShifter.add c dsIn = Except.ok c') :
    ∃ d, c'.ds = some d ∧
      d.IonBeamSequence.length = dsIn.IonBeamSequence.length ∧
      ∀ b ∈ d.IonBeamSequence,
        b.RangeShifterSequence.length = 1 ∧
        ∃ cp rest, b.IonControlPointSequence = cp :: rest ∧
          cp.SnoutPosition = PyVal.num p ∧
          cp.RangeShifterSettingsSequence.length = 1 ∧
          ∀ st ∈ cp.RangeShifterSettingsSequence,
            st.IsocenterToRangeShifterDistance = PyVal.num (461 - 421 + p) := by
  have hc : c = cfgAddP p := by
    have he := init_add_eval p h1 h2
    rw [hinit] at he
    exact Except.ok.inj he
  subst hc
  obtain ⟨beams, hb, hds⟩ :=
    @add_addmode_spec (cfgAddP p) c' dsIn ("RS=3cm") (.num (461 - 421 + p)) rfl rfl rfl hadd
  obtain ⟨hlen, hmem⟩ := mapExcept_ok hb
  refine ⟨_, hds, hlen, ?_⟩
  intro b hbmem
  obtain ⟨a, _, hfa⟩ := hmem b hbmem
  obtain ⟨hn, hrs, cp, rest, hicps, hsnout, hset⟩ := addModeBeam_spec hfa
  refine ⟨by rw [hrs]; rfl, cp, rest, hicps, ?_, by rw [hset]; rfl, ?_⟩
  · rw [hsnout]; rfl
  · intro st hst
    rw [hset] at hst
    rw [List.mem_singleton.1 hst]

/-- Witness for claim C1 at snout position 250 on the sample document. -/
theorem addMode_apply_end_to_end_witness :
    ∃ d, cfgAdd250'.ds = some d ∧
      d.IonBeamSequence.length = sampleDoc.IonBeamSequence.length ∧
      ∀ b ∈ d.IonBeamSequence,
        b.RangeShifterSequence.length = 1 ∧
        ∃ cp rest, b.IonControlPointSequence = cp :: rest ∧
          cp.SnoutPosition = PyVal.num 250 ∧
          cp.RangeShifterSettingsSequence.length = 1 ∧
          ∀ st ∈ cp.RangeShifterSettingsSequence,
            st.IsocenterToRangeShifterDistance = PyVal.num (461 - 421 + 250) :=
  addMode_apply_end_to_end 250 cfgAdd250 cfgAdd250' sampleDoc (by norm_num) (by norm_num)
    (init_add_eval 250 (by norm_num) (by norm_num)) (by rfl)

/-- Claim C2 (code bug): in modify mode with a thickness supplied and the
snout position omitted, the constructor itself raises: the third snout
branch evaluates snout_position > 421.0 with snout_position None, which is
a TypeError in Python, so the documented thickness-only modify run can
never reach the edit step (and even with a snout supplied, the identifier
assignment on source line 113 names the undefined bare identifier and
raises NameError, as the claim C3 theorem shows). -/
theorem modify_thickness_only_rejected_at_init :
    RangeShifter.init (.str ("plan.dcm")) (.str ("label")) PyVal.vnone (.num 3) PyVal.vnone false
      = Except.error (.typeError ("order comparison not supported between these operand types")) :=
  rfl

/-- Claim C3 (code bug): in modify mode with a snout position supplied the
edit always raises on the first ion beam of a document that has one beam
with an existing device block and settings block: AttributeError when no
thickness was supplied (self.RangeShifterID was never assigned), NameError
when one was (the bare name RangeShifterID on source line 113 is
undefined); the snout position and isocenter distance are never
overwritten. -/
theorem modify_mode_apply_always_raises :
    ((RangeShifter.init (.str ("plan.dcm")) (.str ("label")) (.num 250) PyVal.vnone
          PyVal.vnone false).bind
        (fun c => RangeShifter.add c sampleDoc)
      = Except.error (.attributeError (("RangeShifter object has no attribute ")
          ++ ("RangeShifterID")))) ∧
    ((RangeShifter.init (.str ("plan.dcm")) (.str ("label")) (.num 250) (.num 3)
          PyVal.vnone false).bind
        (fun c => RangeShifter.add c sampleDoc)
      = Except.error (.nameError ("name RangeShifterID is not defined"))) :=
  ⟨rfl, rfl⟩

/-- Counterexample to claim C4 as stated: the identifier 1.2.840.99999 is
rewritten to 1.4.840.99999 (character at index 2 replaced), not to the
1.24840.99999 the claim names (which would be a replacement at index 3). -/
theorem rewriteUID_example_counterexample :
    RangeShifter.rewriteUID ("1.2.840.99999") = ("1.4.840.99999") ∧
    ¬ (RangeShifter.rewriteUID ("1.2.840.99999") = ("1.24840.99999")) := by
  exact ⟨rfl, by decide⟩

/-- Claim C4 as amended: for every identifier of length at least 3 the
rewrite replaces exactly the character at index 2 with the character 4,
preserving the length and every other character; in particular
1.2.840.99999 becomes 1.4.840.99999. -/
theorem rewriteUID_index2 (s : String) (h : 3 ≤ s.length) :
    (RangeShifter.rewriteUID s).length = s.length ∧
    (RangeShifter.rewriteUID s).data[2]? = some '4' ∧
    (∀ i : ℕ, i ≠ 2 → (RangeShifter.rewriteUID s).data[i]? = s.data[i]?) ∧
    RangeShifter.rewriteUID ("1.2.840.99999") = ("1.4.840.99999") := by
  obtain ⟨l⟩ := s
  rcases l with - | ⟨a, - | ⟨b, - | ⟨cc, rest⟩⟩⟩
  · simp [String.length] at h
  · simp [String.length] at h
  · simp [String.length] at h
  · refine ⟨?_, by simp [RangeShifter.rewriteUID], ?_, by decide⟩
    · simp [RangeShifter.rewriteUID, String.length]
    · intro i hi
      match i with
      | 0 => simp [RangeShifter.rewriteUID]
      | 1 => simp [RangeShifter.rewriteUID]
      | 2 => exact absurd rfl hi
      | (n + 3) => simp [RangeShifter.rewriteUID]

/-- Witness for claim C4 at the identifier 1.2.840.99999. -/
theorem rewriteUID_index2_witness :
    (RangeShifter.rewriteUID ("1.2.840.99999")).length = ("1.2.840.99999" : String).length ∧
    (RangeShifter.rewriteUID ("1.2.840.99999")).data[2]? = some '4' ∧
    (∀ i : ℕ, i ≠ 2 →
      (RangeShifter.rewriteUID ("1.2.840.99999")).data[i]? = ("1.2.840.99999" : String).data[i]?) ∧
    RangeShifter.rewriteUID ("1.2.840.99999") = ("1.4.840.99999") :=
  rewriteUID_index2 ("1.2.840.99999") (by decide)

/-- Counterexample to claim C5 as stated: an original identifier whose
character at index 2 is already the character 4 is rewritten to itself, so
the rewritten identifier does not always differ from the original. -/
theorem rewriteUID_fixed_point_counterexample :
    RangeShifter.rewriteUID ("1.4.840.99999") = ("1.4.840.99999") := rfl

/-- Claim C5 as amended: the rewritten identifier differs from the
original exactly when the original does not already carry the character 4
at index 2 (for identifiers shorter than 3 characters it always differs,
because a character is appended). -/
theorem rewriteUID_fixed_point_iff (uid : String) :
    RangeShifter.rewriteUID uid = uid ↔ uid.data[2]? = some '4' := by
  rw [String.ext_iff]
  obtain ⟨l⟩ := uid
  rcases l with - | ⟨a, - | ⟨b, - | ⟨cc, rest⟩⟩⟩
  · simp [RangeShifter.rewriteUID]
  · simp [RangeShifter.rewriteUID]
  · simp [RangeShifter.rewriteUID]
  · simp [RangeShifter.rewriteUID, eq_comm]

/-- Claim C6: for every snout position p accepted in add mode, that is
20 <= p <= 421, the derived constant equals 461 - 421 + p, which is
exactly 40 + p; every numeric snout position outside that interval fails
construction in add mode. -/
theorem snout_iso_validation (p : ℚ) :
    ((20 ≤ p ∧ p ≤ 421) →
      RangeShifter.init (.str ("plan.dcm")) (.str ("label")) (.num p) (.num 3)
          PyVal.vnone true = Except.ok (cfgAddP p) ∧
      (cfgAddP p).IsocentertoRangeShifterDistance = some (PyVal.num (461 - 421 + p)) ∧
      (461 - 421 + p : ℚ) = 40 + p) ∧
    (¬ (20 ≤ p ∧ p ≤ 421) →
      RangeShifter.init (.str ("plan.dcm")) (.str ("label")) (.num p) (.num 3)
          PyVal.vnone true
        = Except.error (.valueError ("snout_position must be between 20.0 and 421.0"))) := by
  constructor
  · rintro ⟨h1, h2⟩
    exact ⟨init_add_eval p h1 h2, rfl, by ring⟩
  · intro h
    refine init_add_out_of_range p ?_
    rcases not_and_or.1 h with h | h
    · exact Or.inl (not_le.1 h)
    · exact Or.inr (not_le.1 h)

/-- Witness for claim C6 at the in-range snout position 250 and the
out-of-range snout position 500. -/
theorem snout_iso_validation_witness :
    (RangeShifter.init (.str ("plan.dcm")) (.str ("label")) (.num 250) (.num 3)
        PyVal.vnone true = Except.ok (cfgAddP 250) ∧
      (cfgAddP 250).IsocentertoRangeShifterDistance = some (PyVal.num (461 - 421 + 250)) ∧
      (461 - 421 + 250 : ℚ) = 40 + 250) ∧
    RangeShifter.init (.str ("plan.dcm")) (.str ("label")) (.num 500) (.num 3)
        PyVal.vnone true
      = Except.error (.valueError ("snout_position must be between 20.0 and 421.0")) :=
  ⟨(snout_iso_validation 250).1 (by norm_num),
   (snout_iso_validation 500).2 (by norm_num)⟩

/-- Claim C7: in add mode the thicknesses 2, 3 and 5 are accepted and
yield the identifiers RS=2cm, RS=3cm and RS=5cm; every other numeric
thickness and a missing thickness fail construction with the ValueError of
the thickness branch. -/
theorem thickness_validation (t : ℚ) :
    (∃ c, RangeShifter.init (.str ("plan.dcm")) (.str ("label")) (.num 250) (.num 2)
        PyVal.vnone true = Except.ok c ∧ c.RangeShifterID = some ("RS=2cm")) ∧
    (∃ c, RangeShifter.init (.str ("plan.dcm")) (.str ("label")) (.num 250) (.num 3)
        PyVal.vnone true = Except.ok c ∧ c.RangeShifterID = some ("RS=3cm")) ∧
    (∃ c, RangeShifter.init (.str ("plan.dcm")) (.str ("label")) (.num 250) (.num 5)
        PyVal.vnone true = Except.ok c ∧ c.RangeShifterID = some ("RS=5cm")) ∧
    (¬ (t = 2 ∨ t = 3 ∨ t = 5) →
      RangeShifter.init (.str ("plan.dcm")) (.str ("label")) (.num 250) (.num t)
          PyVal.vnone true
        = Except.error (.valueError ("range_shifter must be int, either: 2, 3 or 5"))) ∧
    RangeShifter.init (.str ("plan.dcm")) (.str ("label")) (.num 250) PyVal.vnone
        PyVal.vnone true
      = Except.error (.valueError ("range_shifter must be int, either: 2, 3 or 5")) := by
  refine ⟨⟨_, rfl, rfl⟩, ⟨_, rfl, rfl⟩, ⟨_, rfl, rfl⟩, init_add_bad_thickness t, rfl⟩

/-- Witness for claim C7 at the unsupported thickness 7. -/
theorem thickness_validation_witness :
    RangeShifter.init (.str ("plan.dcm")) (.str ("label")) (.num 250) (.num 7)
        PyVal.vnone true
      = Except.error (.valueError ("range_shifter must be int, either: 2, 3 or 5")) :=
  ((thickness_validation 7).2.2.2.1 (by norm_num))

/-- Counterexample to claim C8 as stated: in modify mode an absent snout
position does not produce the ValueError of the snout branch that names
the snout_position field. -/
theorem modify_absent_snout_not_branch_error :
    ¬ (RangeShifter.init (.str ("plan.dcm")) (.str ("label")) PyVal.vnone PyVal.vnone
          PyVal.vnone false
        = Except.error (.valueError ("snout_position must be None or between 20.0 and 421.0"))) := by
  decide

/-- Claim C8 as amended: in modify mode an absent snout position is
rejected while the condition of that same validation branch is being
evaluated, before any file access, but the raised error is the TypeError
produced by comparing None with a number, not an InvalidArgument error
naming the snout-position field. -/
theorem modify_absent_snout_type_error :
    RangeShifter.init (.str ("plan.dcm")) (.str ("label")) PyVal.vnone PyVal.vnone
        PyVal.vnone false
      = Except.error (.typeError ("order comparison not supported between these operand types")) :=
  rfl

/-- Counterexample to claim C9 as stated: the empty plan label is a string,
so construction succeeds with it; the non-empty requirement the claim
states is not checked anywhere. -/
theorem empty_plan_label_accepted :
    ∃ c, RangeShifter.init (.str ("plan.dcm")) (.str ("")) (.num 250) (.num 3)
        PyVal.vnone true = Except.ok c ∧ c.RTPlanLabel = ("") :=
  ⟨_, rfl, rfl⟩

/-- Claim C9 as amended: construction fails with a TypeError whenever the
plan label is not text (not a string), and every text plan label,
including the empty string, is accepted and stored. -/
theorem plan_label_validation (v : PyVal) :
    ((∃ s, v = PyVal.str s) →
      ∃ c, RangeShifter.init (.str ("plan.dcm")) v (.num 250) (.num 3) PyVal.vnone true
        = Except.ok c ∧ PyVal.str c.RTPlanLabel = v) ∧
    ((∀ s, v ≠ PyVal.str s) →
      RangeShifter.init (.str ("plan.dcm")) v (.num 250) (.num 3) PyVal.vnone true
        = Except.error (.typeError ("plan_id must be a string"))) := by
  constructor
  · rintro ⟨s, rfl⟩
    exact ⟨_, rfl, rfl⟩
  · intro hv
    cases v with
    | vnone => rfl
    | num q => rfl
    | str s => exact absurd rfl (hv s)

/-- Witness for claim C9 at the empty string label and the numeric
non-label 0. -/
theorem plan_label_validation_witness :
    (∃ c, RangeShifter.init (.str ("plan.dcm")) (PyVal.str ("")) (.num 250) (.num 3)
        PyVal.vnone true = Except.ok c ∧ PyVal.str c.RTPlanLabel = PyVal.str ("")) ∧
    RangeShifter.init (.str ("plan.dcm")) (PyVal.num 0) (.num 250) (.num 3)
        PyVal.vnone true
      = Except.error (.typeError ("plan_id must be a string")) :=
  ⟨(plan_label_validation (PyVal.str (""))).1 ⟨_, rfl⟩,
   (plan_label_validation (PyVal.num 0)).2 (by intro s h; cases h)⟩

/-- Claim C10: whenever construction succeeds, in either mode, the ds
attribute holding the mutated document is still unset, so calling save
before add fails with an AttributeError and produces no file write. -/
theorem save_before_add (infileV planV snoutV rsV outV : PyVal) (mode : Bool)
    (c : RangeShifter.Config)
    (h : RangeShifter.init infileV planV snoutV rsV outV mode = Except.ok c) :
    c.ds = none ∧
    RangeShifter.save c
      = Except.error (.attributeError (("RangeShifter object has no attribute ") ++ ("ds"))) := by
  unfold RangeShifter.init at h
  obtain ⟨a1, h1, h⟩ := bindOk h
  obtain ⟨a2, h2, h⟩ := bindOk h
  obtain ⟨a3, h3, h⟩ := bindOk h
  obtain ⟨a4, h4, h⟩ := bindOk h
  obtain ⟨a5, h5, h⟩ := bindOk h
  obtain ⟨a6, h6, h⟩ := bindOk h
  rw [pure_eq_ok] at h
  cases h
  exact ⟨rfl, rfl⟩

/-- Witness for claim C10 on a freshly constructed add-mode state. -/
theorem save_before_add_witness :
    cfgW.ds = none ∧
    RangeShifter.save cfgW
      = Except.error (.attributeError (("RangeShifter object has no attribute ") ++ ("ds"))) :=
  save_before_add (.str ("plan.dcm")) (.str ("label")) (.num 250) (.num 3) PyVal.vnone true
    cfgW (by rfl)
